import Mathlib

/-!
Shallow embedding of the SAFE-LOOP orchestrator core
(src/apps/api/safeloop_api/main.py): session state machine, impact engine,
risk classifier and narrative generator. HTTP transport, CORS and static
file hosting are out of scope; wall-clock time (`now_iso()`) is passed in
as an explicit string parameter, and the SHA-256 user digest (`hash_user`)
is treated as an opaque already-computed string (no claim depends on it).
Python dict-backed sessions become a `Session` structure; in-place dict
mutation becomes functional update; `HTTPException` becomes
`Except ApiError`.
-/

namespace SafeLoop

/-- Impact Snapshot: the five integer scores plus the `updated_at` timestamp
(`baseline_impact` dict shape in main.py). -/
structure Impact where
  privacy_exposure : Int
  trust : Int
  regulatory_scrutiny : Int
  business_impact : Int
  community_harm : Int
  updated_at : String
  deriving Repr, DecidableEq

/-- One row of the `SCENARIO_IMPACTS` delta table. Sparse Python dicts are
read back with `.get(key, 0)`, so a row is total with 0 defaults. -/
structure Deltas where
  trust : Int
  streak : Int
  privacy_exposure : Int
  community_harm : Int
  deriving Repr, DecidableEq

/-- `SCENARIO_IMPACTS` from main.py: the two recognized action types. -/
def SCENARIO_IMPACTS (decision_type : String) : Option Deltas :=
  if decision_type = "ethical" then some ⟨10, 1, -5, -5⟩
  else if decision_type = "exploit" then some ⟨-20, -100, 15, 10⟩
  else none

/-- The fallback `{"trust": 0}` used when the lookup misses; every other
field is read with a 0 default, so the fallback row is all zeros. -/
def default_deltas : Deltas := ⟨0, 0, 0, 0⟩

/-- `clamp(v, lo, hi)` from main.py (defaults lo=0, hi=100 written out at
every call site). -/
def clamp (v lo hi : Int) : Int := max lo (min hi v)

/-- `baseline_impact()` from main.py, with `now_iso()` passed in. -/
def baseline_impact (now : String) : Impact :=
  { privacy_exposure := 0
    trust := 100
    regulatory_scrutiny := 0
    business_impact := 0
    community_harm := 0
    updated_at := now }

/-- `risk_level(impact)` from main.py. Python `//` on ints is floor
division, i.e. `Int.fdiv`; the `int(score)` cast is the identity on an
int and is dropped. -/
def risk_level (impact : Impact) : String :=
  let score :=
    (impact.privacy_exposure * 2 + impact.community_harm * 2
      + (100 - impact.trust)).fdiv 5
  let score2 := clamp score 0 100
  if score2 ≥ 60 then "High"
  else if score2 ≥ 30 then "Medium"
  else "Low"

/-- The risk formula as the spec words it:
`score = clamp(int((privacy_exposure*2 + community_harm*2 + (100 - trust)) / 5), 0, 100)`
with floor (round toward negative infinity) division, then
score ≥ 60 → High, score ≥ 30 → Medium, else Low. Kept separate from
`risk_level` so the two can be compared. -/
def risk_level_spec (impact : Impact) : String :=
  let score :=
    clamp ((impact.privacy_exposure * 2 + impact.community_harm * 2
      + (100 - impact.trust)).fdiv 5) 0 100
  if score ≥ 60 then "High"
  else if score ≥ 30 then "Medium"
  else "Low"

/-- Action Record appended by `log_action`: timestamp, normalized type,
free-form detail mapping (modelled as an association list), and the frozen
`dict(impact)` copy. -/
structure ActionRecord where
  ts : String
  action_type : String
  details : List (String × String)
  impact_after : Impact
  deriving Repr, DecidableEq

/-- Reflection Record shape (`ReflectionIn` in main.py); stored but never
written by the modelled routes. -/
structure Reflection where
  what_happened : String
  who_could_be_harmed : String
  what_you_would_do_in_industry : String
  deriving Repr, DecidableEq

/-- A session dict from the `SESSIONS` store. -/
structure Session where
  user_id : String
  persona : String
  scenario_id : String
  status : String
  ethics_declared : Bool
  impact : Impact
  actions : List ActionRecord
  reflections : List Reflection
  deriving Repr, DecidableEq

/-- `EthicsDeclarationIn` request body. -/
structure EthicsDeclarationIn where
  acknowledge_no_harm : Bool
  acknowledge_no_real_data : Bool
  acknowledge_audit_logging : Bool
  acknowledge_professional_codes : Bool
  deriving Repr, DecidableEq

/-- `ActionLogIn` request body. -/
structure ActionLogIn where
  action_type : String
  details : List (String × String)
  intent : String
  expected_impact : String
  deriving Repr, DecidableEq

/-- The two error kinds: 404 "Session not found" and the 400/403
precondition failures. -/
inductive ApiError where
  | NotFound
  | PreconditionFailed
  deriving Repr, DecidableEq

/-- `llm_summary` response shape built by `fake_llm_summary`. -/
structure Summary where
  headline : String
  risk_level : String
  observations : List String
  human_impact : String
  recommended_next_steps : List String
  generated_at : String
  deriving Repr, DecidableEq

/-- Python `str.lower()`, as used on action types: per-character
lowercasing (`Char.toLower` maps A-Z to a-z and fixes everything else;
the action-type vocabulary is ASCII). -/
def lower_string (s : String) : String :=
  String.mk (s.data.map Char.toLower)

/-- Python `l[-3:]`: the last `n` elements (all of them when fewer). -/
def last_n {α : Type} (l : List α) (n : Nat) : List α :=
  l.drop (l.length - n)

/-- `fake_llm_summary(session)` from main.py, with `now_iso()` passed in.
`int(impact.get("trust", 100))` is the identity on the stored int. The
`if actions else []` guard is redundant (`[][-3:]` is `[]`) and folds into
`last_n`. Adjacent Python string literals are concatenated. -/
def fake_llm_summary (session : Session) (now : String) : Summary :=
  let impact := session.impact
  let actions := session.actions
  let last_actions := last_n (actions.map (fun a => a.action_type)) 3
  let trust := impact.trust
  let level := risk_level impact
  let headline :=
    if trust < 70 then "⚠️ Critical Risk Assessment"
    else "✅ Responsible Operation Summary"
  let human_impact :=
    if trust < 70 then
      "Recent decisions have prioritized speed or curiosity over safety. In a real-world setting, this would trigger a compliance audit and potentially harm vulnerable user groups."
    else
      "You have consistently prioritized stakeholder safety. This builds long-term resilience and trust, even if it requires more initial effort."
  let recommended :=
    if trust < 70 then
      ["Review the \x27Code of Ethics\x27 immediately.",
       "Reset the simulation and attempt the \x27Ethical\x27 path to observe the difference.",
       "Document why you chose the exploit path in your reflection log."]
    else
      ["Continue applying the \x27Do No Harm\x27 principle.",
       "Consider how these safeguards might scale to larger systems.",
       "Prepare your final reflection report."]
  { headline := headline
    risk_level := level
    observations := last_actions
    human_impact := human_impact
    recommended_next_steps := recommended
    generated_at := now }

/-- Body of `create_session`: the fresh session dict written into
`SESSIONS`. `safe_user_id` is the output of `hash_user` (opaque here). -/
def create_session (safe_user_id persona scenario_id now : String) : Session :=
  { user_id := safe_user_id
    persona := persona
    scenario_id := scenario_id
    status := "created"
    ethics_declared := false
    impact := baseline_impact now
    actions := []
    reflections := [] }

/-- Session-level body of `declare_ethics` (after the store lookup):
the 400 gate check, then the two field writes. -/
def declare_ethics_session (session : Session) (payload : EthicsDeclarationIn) :
    Except ApiError Session :=
  if !(payload.acknowledge_no_harm && payload.acknowledge_no_real_data) then
    Except.error ApiError.PreconditionFailed
  else
    Except.ok { session with ethics_declared := true, status := "active" }

/-- The three delta applications plus timestamp write inside `log_action`
(lines 227-230 of main.py). -/
def apply_deltas (impact : Impact) (deltas : Deltas) (now : String) : Impact :=
  { impact with
    trust := clamp (impact.trust + deltas.trust) 0 100
    privacy_exposure := clamp (impact.privacy_exposure + deltas.privacy_exposure) 0 100
    community_harm := clamp (impact.community_harm + deltas.community_harm) 0 100
    updated_at := now }

/-- Session-level body of `log_action` (after the store lookup): the 403
ethics gate, lowercasing, table lookup with `{"trust": 0}` fallback, the
clamped delta application and the appended Action Record. Python calls
`now_iso()` twice (impact timestamp and record `ts`); the two reads are
modelled by the single `now` argument. -/
def log_action_session (session : Session) (payload : ActionLogIn) (now : String) :
    Except ApiError Session :=
  if !session.ethics_declared then Except.error ApiError.PreconditionFailed
  else
    let decision_type := lower_string payload.action_type
    let deltas := (SCENARIO_IMPACTS decision_type).getD default_deltas
    let impact := apply_deltas session.impact deltas now
    Except.ok { session with
      impact := impact
      actions := session.actions ++
        [{ ts := now
           action_type := decision_type
           details := payload.details
           impact_after := impact }] }

/-- Session-level body of `reset` (after the store lookup). -/
def reset_session (session : Session) (now : String) : Session :=
  { session with
    status := "created"
    actions := []
    reflections := []
    impact := baseline_impact now }

/-- The in-memory `SESSIONS` map, as an association list. -/
abbrev Store := List (String × Session)

/-- `SESSIONS.get(session_id)`. -/
def findSession (store : Store) (sid : String) : Option Session :=
  (store.find? (fun p => p.1 == sid)).map (fun p => p.2)

/-- In-place mutation of the session stored under `sid`. -/
def updateSession (store : Store) (sid : String) (s : Session) : Store :=
  store.map (fun p => if p.1 == sid then (p.1, s) else p)

/-- Route `declare_ethics`: 404 on missing session, else the session body. -/
def declare_ethics (store : Store) (sid : String) (payload : EthicsDeclarationIn) :
    Except ApiError Store :=
  match findSession store sid with
  | none => Except.error ApiError.NotFound
  | some session =>
    match declare_ethics_session session payload with
    | Except.error e => Except.error e
    | Except.ok s2 => Except.ok (updateSession store sid s2)

/-- Route `log_action`: 404 on missing session, else the session body. -/
def log_action (store : Store) (sid : String) (payload : ActionLogIn) (now : String) :
    Except ApiError Store :=
  match findSession store sid with
  | none => Except.error ApiError.NotFound
  | some session =>
    match log_action_session session payload now with
    | Except.error e => Except.error e
    | Except.ok s2 => Except.ok (updateSession store sid s2)

/-- Route `reset`: 404 on missing session, else re-baseline. -/
def reset (store : Store) (sid : String) (now : String) : Except ApiError Store :=
  match findSession store sid with
  | none => Except.error ApiError.NotFound
  | some session => Except.ok (updateSession store sid (reset_session session now))

/-- The store an HTTP caller holds after a route returns: unchanged when the
route raised (Python raises `HTTPException` before any mutation). -/
def apply_route (store : Store) (r : Except ApiError Store) : Store :=
  match r with
  | Except.ok st => st
  | Except.error _ => store

/-- One mutating operation on a single session. -/
inductive Op where
  | declare (payload : EthicsDeclarationIn)
  | logAct (payload : ActionLogIn) (now : String)
  | doReset (now : String)

/-- Effect of one operation on a session; a raised `HTTPException` leaves
the session unchanged (the check precedes every mutation in main.py). -/
def step (session : Session) (op : Op) : Session :=
  match op with
  | Op.declare p =>
    match declare_ethics_session session p with
    | Except.ok s2 => s2
    | Except.error _ => session
  | Op.logAct p now =>
    match log_action_session session p now with
    | Except.ok s2 => s2
    | Except.error _ => session
  | Op.doReset now => reset_session session now

/-- A sequence of operations on one session. -/
def run_ops (session : Session) (ops : List Op) : Session :=
  ops.foldl step session

/-- A sequence of `log_action` calls on one session. -/
def run_actions (session : Session) (inputs : List (ActionLogIn × String)) : Session :=
  inputs.foldl (fun s pr => step s (Op.logAct pr.1 pr.2)) session

/-- A score is within the documented [0,100] range. -/
def score_in_range (v : Int) : Prop := 0 ≤ v ∧ v ≤ 100

/-- All five snapshot scores are within [0,100]. -/
def in_range (impact : Impact) : Prop :=
  score_in_range impact.privacy_exposure ∧
  score_in_range impact.trust ∧
  score_in_range impact.regulatory_scrutiny ∧
  score_in_range impact.business_impact ∧
  score_in_range impact.community_harm

instance (v : Int) : Decidable (score_in_range v) := by
  unfold score_in_range; infer_instance

instance (impact : Impact) : Decidable (in_range impact) := by
  unfold in_range; infer_instance

/-! Concrete fixtures used to instantiate the theorems below. -/

/-- A freshly created session (ethics not yet declared). -/
def sample_session : Session := create_session "hash0" "student" "sc-1" "t0"

/-- The same session after a successful ethics declaration. -/
def sample_active : Session :=
  { sample_session with ethics_declared := true, status := "active" }

/-- A one-session store holding the active session under id "s1". -/
def sample_store : Store := [("s1", sample_active)]

/-- A one-session store holding the fresh session under id "s0". -/
def fresh_store : Store := [("s0", sample_session)]

/-- An `ActionLogIn` body for an exploit decision. -/
def exploit_payload : ActionLogIn :=
  { action_type := "exploit", details := [], intent := "Simulation Decision",
    expected_impact := "Unknown" }

/-- An `ActionLogIn` body with mixed-case type, exercising the lowercasing. -/
def ethical_payload : ActionLogIn :=
  { action_type := "Ethical", details := [], intent := "Simulation Decision",
    expected_impact := "Unknown" }

/-- All four acknowledgments true. -/
def all_acks : EthicsDeclarationIn :=
  { acknowledge_no_harm := true, acknowledge_no_real_data := true,
    acknowledge_audit_logging := true, acknowledge_professional_codes := true }

/-- The no-harm acknowledgment withheld. -/
def no_harm_false : EthicsDeclarationIn :=
  { acknowledge_no_harm := false, acknowledge_no_real_data := true,
    acknowledge_audit_logging := true, acknowledge_professional_codes := true }

/-- A fresh session taken through a successful ethics declaration, as in the
five-exploit scenario. -/
def c7_session : Session :=
  step (create_session "hash7" "student" "sc-7" "t0") (Op.declare all_acks)

/-- `n` consecutive exploit calls. -/
def exploit_inputs (n : Nat) : List (ActionLogIn × String) :=
  List.replicate n (exploit_payload, "t1")

/-! Helper lemmas shared by the claim theorems. -/

theorem clamp_mem (v : Int) : 0 ≤ clamp v 0 100 ∧ clamp v 0 100 ≤ 100 := by
  unfold clamp
  exact ⟨le_max_left 0 _, max_le (by norm_num) (min_le_left _ _)⟩

theorem clamp_of_range (v : Int) (h0 : 0 ≤ v) (h1 : v ≤ 100) : clamp v 0 100 = v := by
  unfold clamp
  rw [min_eq_right h1, max_eq_right h0]

theorem apply_deltas_in_range (impact : Impact) (deltas : Deltas) (now : String)
    (h : in_range impact) : in_range (apply_deltas impact deltas now) := by
  obtain ⟨-, -, h3, h4, -⟩ := h
  exact ⟨clamp_mem _, clamp_mem _, h3, h4, clamp_mem _⟩

theorem step_logAct_in_range (s : Session) (p : ActionLogIn) (t : String)
    (h : in_range s.impact) : in_range (step s (Op.logAct p t)).impact := by
  unfold step log_action_session
  cases hb : s.ethics_declared with
  | false => simpa [hb] using h
  | true =>
    simp only [hb, Bool.not_true, if_false]
    exact apply_deltas_in_range _ _ _ h

theorem run_actions_in_range (inputs : List (ActionLogIn × String)) (s : Session)
    (h : in_range s.impact) : in_range (run_actions s inputs).impact := by
  induction inputs generalizing s with
  | nil => exact h
  | cons x xs ih => exact ih _ (step_logAct_in_range _ _ _ h)

theorem step_actions_extend (s : Session) (p : ActionLogIn) (t : String) :
    ∃ t0, (step s (Op.logAct p t)).actions = s.actions ++ t0 := by
  unfold step log_action_session
  cases hb : s.ethics_declared with
  | false => exact ⟨[], by simp [hb]⟩
  | true =>
    simp only [hb, Bool.not_true, if_false]
    exact ⟨_, rfl⟩

theorem run_actions_actions_extend (inputs : List (ActionLogIn × String)) (s : Session) :
    ∃ tail, (run_actions s inputs).actions = s.actions ++ tail := by
  induction inputs generalizing s with
  | nil => exact ⟨[], by simp [run_actions]⟩
  | cons x xs ih =>
    obtain ⟨tail, htail⟩ := ih (step s (Op.logAct x.1 x.2))
    obtain ⟨t0, ht0⟩ := step_actions_extend s x.1 x.2
    refine ⟨t0 ++ tail, ?_⟩
    show (run_actions (step s (Op.logAct x.1 x.2)) xs).actions = _
    rw [htail, ht0, List.append_assoc]

theorem step_zero (s : Session) (op : Op)
    (h : s.impact.regulatory_scrutiny = 0 ∧ s.impact.business_impact = 0) :
    (step s op).impact.regulatory_scrutiny = 0 ∧
    (step s op).impact.business_impact = 0 := by
  cases op with
  | declare p =>
    unfold step declare_ethics_session
    cases hb : (p.acknowledge_no_harm && p.acknowledge_no_real_data) <;>
      simpa [hb] using h
  | logAct p now =>
    unfold step log_action_session
    cases hb : s.ethics_declared with
    | false => simpa [hb] using h
    | true =>
      simp only [hb, Bool.not_true, if_false]
      exact h
  | doReset now => exact ⟨rfl, rfl⟩

/-- C1: the baseline snapshot is within range, and every Impact Snapshot
field stays within [0,100] after any sequence of `log_action` calls with
any action types, starting from any in-range state (hence from the
baseline and after every intermediate mutation, each of which is the run
of a prefix). -/
theorem c1_impact_fields_bounded (now : String) (s : Session)
    (inputs : List (ActionLogIn × String)) (h : in_range s.impact) :
    in_range (baseline_impact now) ∧ in_range (run_actions s inputs).impact := by
  constructor
  · refine ⟨⟨?_, ?_⟩, ⟨?_, ?_⟩, ⟨?_, ?_⟩, ⟨?_, ?_⟩, ⟨?_, ?_⟩⟩ <;> norm_num [baseline_impact]
  · exact run_actions_in_range inputs s h

/-- Witness for C1 at a concrete fresh session and a two-call input list. -/
theorem c1_witness :
    in_range (baseline_impact "t0") ∧
    in_range (run_actions sample_active
      [(exploit_payload, "t1"), (ethical_payload, "t2")]).impact :=
  c1_impact_fields_bounded "t0" sample_active
    [(exploit_payload, "t1"), (ethical_payload, "t2")] (by decide)

/-- C2: `risk_level` computes exactly the spec formula
`clamp(int((privacy_exposure*2 + community_harm*2 + (100 - trust)) / 5), 0, 100)`
with floor division and the 60/30 thresholds, and it is a pure function of
the snapshot: identical snapshots yield identical risk levels. -/
theorem c2_risk_level_formula :
    (∀ impact : Impact, risk_level impact = risk_level_spec impact) ∧
    (∀ i1 i2 : Impact, i1 = i2 → risk_level i1 = risk_level i2) :=
  ⟨fun _ => rfl, fun _ _ h => congrArg risk_level h⟩

/-- Witness for C2 at the baseline snapshot. -/
theorem c2_witness :
    risk_level (baseline_impact "t0") = risk_level_spec (baseline_impact "t0") ∧
    risk_level (baseline_impact "t0") = risk_level (baseline_impact "t0") :=
  ⟨c2_risk_level_formula.1 (baseline_impact "t0"),
   c2_risk_level_formula.2 (baseline_impact "t0") (baseline_impact "t0") rfl⟩

/-- C7: from a fresh session taken through the ethics gate, five
consecutive "exploit" actions drive trust 100→80→60→40→20→0 (clamped) and
the resulting risk level is "High". -/
theorem c7_five_exploits :
    (run_actions c7_session (exploit_inputs 0)).impact.trust = 100 ∧
    (run_actions c7_session (exploit_inputs 1)).impact.trust = 80 ∧
    (run_actions c7_session (exploit_inputs 2)).impact.trust = 60 ∧
    (run_actions c7_session (exploit_inputs 3)).impact.trust = 40 ∧
    (run_actions c7_session (exploit_inputs 4)).impact.trust = 20 ∧
    (run_actions c7_session (exploit_inputs 5)).impact.trust = 0 ∧
    risk_level (run_actions c7_session (exploit_inputs 5)).impact = "High" := by
  decide

/-- C10: starting from session creation, the `regulatory_scrutiny` and
`business_impact` scores are 0 in every reachable state: creation writes 0,
no action type carries a delta for them, and reset re-baselines them to 0. -/
theorem c10_untouched_fields (safe_user_id persona scenario_id now : String)
    (ops : List Op) :
    (run_ops (create_session safe_user_id persona scenario_id now) ops).impact.regulatory_scrutiny = 0 ∧
    (run_ops (create_session safe_user_id persona scenario_id now) ops).impact.business_impact = 0 := by
  have gen : ∀ (l : List Op) (s : Session),
      s.impact.regulatory_scrutiny = 0 ∧ s.impact.business_impact = 0 →
      (run_ops s l).impact.regulatory_scrutiny = 0 ∧
      (run_ops s l).impact.business_impact = 0 := by
    intro l
    induction l with
    | nil => intro s h; exact h
    | cons x xs ih => intro s h; exact ih _ (step_zero s x h)
  exact gen ops _ ⟨rfl, rfl⟩

/-- C3: `reset` fails with `NotFound` on an absent session id; on an
existing session it re-baselines the impact, empties actions and
reflections, sets status to "created", and preserves `user_ref`,
`persona`, `scenario_id` and `ethics_declared`. -/
theorem c3_reset_frame (store : Store) (sid now : String) :
    (findSession store sid = none → reset store sid now = Except.error ApiError.NotFound) ∧
    (∀ s : Session, findSession store sid = some s →
      reset store sid now = Except.ok (updateSession store sid (reset_session s now)) ∧
      (reset_session s now).impact = baseline_impact now ∧
      (reset_session s now).actions = [] ∧
      (reset_session s now).reflections = [] ∧
      (reset_session s now).status = "created" ∧
      (reset_session s now).user_id = s.user_id ∧
      (reset_session s now).persona = s.persona ∧
      (reset_session s now).scenario_id = s.scenario_id ∧
      (reset_session s now).ethics_declared = s.ethics_declared) := by
  constructor
  · intro h
    unfold reset
    rw [h]
  · intro s h
    unfold reset
    rw [h]
    exact ⟨rfl, rfl, rfl, rfl, rfl, rfl, rfl, rfl, rfl⟩

/-- Witness for C3 at a concrete one-session store and a missing id. -/
theorem c3_witness :
    findSession sample_store "s1" = some sample_active ∧
    reset sample_store "s1" "t5" =
      Except.ok (updateSession sample_store "s1" (reset_session sample_active "t5")) ∧
    (reset_session sample_active "t5").impact = baseline_impact "t5" ∧
    findSession sample_store "nope" = none ∧
    reset sample_store "nope" "t5" = Except.error ApiError.NotFound := by
  have h := (c3_reset_frame sample_store "s1" "t5").2 sample_active (by decide)
  have h2 := (c3_reset_frame sample_store "nope" "t5").1 (by decide)
  exact ⟨by decide, h.1, h.2.1, by decide, h2⟩

/-- C4: `declare_ethics` on an existing session fails with
`PreconditionFailed` and leaves the store unchanged whenever the no-harm
and no-real-data acknowledgments are not both true (the other two flags
are never consulted: the statement quantifies over them); when both are
true it sets `ethics_declared=true` and `status="active"`, and declaring
again on the already-active session re-applies the same effect without
error. -/
theorem c4_declare_ethics_gate (store : Store) (sid : String)
    (p : EthicsDeclarationIn) (s : Session)
    (hfind : findSession store sid = some s) :
    (¬(p.acknowledge_no_harm = true ∧ p.acknowledge_no_real_data = true) →
      declare_ethics store sid p = Except.error ApiError.PreconditionFailed ∧
      apply_route store (declare_ethics store sid p) = store) ∧
    (p.acknowledge_no_harm = true → p.acknowledge_no_real_data = true →
      declare_ethics store sid p =
        Except.ok (updateSession store sid
          { s with ethics_declared := true, status := "active" }) ∧
      (∀ p2 : EthicsDeclarationIn,
        p2.acknowledge_no_harm = true → p2.acknowledge_no_real_data = true →
        declare_ethics_session
            { s with ethics_declared := true, status := "active" } p2 =
          Except.ok { s with ethics_declared := true, status := "active" })) := by
  constructor
  · intro hfail
    have hb : (p.acknowledge_no_harm && p.acknowledge_no_real_data) = false := by
      cases ha : p.acknowledge_no_harm <;> cases hb2 : p.acknowledge_no_real_data <;>
        simp_all
    unfold declare_ethics
    rw [hfind]
    unfold declare_ethics_session
    rw [hb]
    exact ⟨rfl, rfl⟩
  · intro h1 h2
    unfold declare_ethics
    rw [hfind]
    unfold declare_ethics_session
    rw [h1, h2]
    refine ⟨rfl, ?_⟩
    intro p2 h3 h4
    rw [h3, h4]
    rfl

/-- Witness for C4: a withheld no-harm flag fails and leaves the store
unchanged; all-true flags activate the session. -/
theorem c4_witness :
    findSession fresh_store "s0" = some sample_session ∧
    declare_ethics fresh_store "s0" no_harm_false =
      Except.error ApiError.PreconditionFailed ∧
    apply_route fresh_store (declare_ethics fresh_store "s0" no_harm_false) = fresh_store ∧
    declare_ethics fresh_store "s0" all_acks =
      Except.ok (updateSession fresh_store "s0"
        { sample_session with ethics_declared := true, status := "active" }) := by
  have hf := (c4_declare_ethics_gate fresh_store "s0" no_harm_false sample_session
    (by decide)).1 (by decide)
  have hs := (c4_declare_ethics_gate fresh_store "s0" all_acks sample_session
    (by decide)).2 rfl rfl
  exact ⟨by decide, hf.1, hf.2, hs.1⟩

/-- C5: `log_action` on an existing session with `ethics_declared=false`
fails with `PreconditionFailed` for every payload and leaves the store
(impact and action history) unchanged; on an absent session id it fails
with `NotFound`. -/
theorem c5_log_action_requires_ethics (store : Store) (sid : String)
    (p : ActionLogIn) (now : String) :
    (findSession store sid = none →
      log_action store sid p now = Except.error ApiError.NotFound) ∧
    (∀ s : Session, findSession store sid = some s → s.ethics_declared = false →
      log_action store sid p now = Except.error ApiError.PreconditionFailed ∧
      apply_route store (log_action store sid p now) = store) := by
  constructor
  · intro h
    unfold log_action
    rw [h]
  · intro s h he
    have hsess : log_action_session s p now = Except.error ApiError.PreconditionFailed := by
      unfold log_action_session
      rw [he]
      rfl
    simp only [log_action, h, hsess, apply_route]
    exact ⟨trivial, trivial⟩

/-- Witness for C5: the fresh (undeclared) session rejects an exploit
payload; a missing id yields `NotFound`. -/
theorem c5_witness :
    findSession fresh_store "s0" = some sample_session ∧
    sample_session.ethics_declared = false ∧
    log_action fresh_store "s0" exploit_payload "t1" =
      Except.error ApiError.PreconditionFailed ∧
    apply_route fresh_store (log_action fresh_store "s0" exploit_payload "t1") = fresh_store ∧
    log_action fresh_store "missing" exploit_payload "t1" =
      Except.error ApiError.NotFound := by
  have h := (c5_log_action_requires_ethics fresh_store "s0" exploit_payload "t1").2
    sample_session (by decide) (by decide)
  have h2 := (c5_log_action_requires_ethics fresh_store "missing" exploit_payload "t1").1
    (by decide)
  exact ⟨by decide, by decide, h.1, h.2, h2⟩

/-- C6: a gated `log_action` lowercases the action type before the table
lookup, stamps `updated_at` with the call time, and updates each named
field as `clamp(current + delta)`: "ethical" gives trust +10,
privacy_exposure -5, community_harm -5; "exploit" gives trust -20,
privacy_exposure +15, community_harm +10; an unrecognized type leaves all
score fields of an in-range snapshot unchanged; `regulatory_scrutiny` and
`business_impact` never move. -/
theorem c6_action_deltas (s : Session) (p : ActionLogIn) (now : String)
    (h : s.ethics_declared = true) :
    ∃ s2, log_action_session s p now = Except.ok s2 ∧
      s2.impact.updated_at = now ∧
      (lower_string p.action_type = "ethical" →
        s2.impact.trust = clamp (s.impact.trust + 10) 0 100 ∧
        s2.impact.privacy_exposure = clamp (s.impact.privacy_exposure - 5) 0 100 ∧
        s2.impact.community_harm = clamp (s.impact.community_harm - 5) 0 100) ∧
      (lower_string p.action_type = "exploit" →
        s2.impact.trust = clamp (s.impact.trust - 20) 0 100 ∧
        s2.impact.privacy_exposure = clamp (s.impact.privacy_exposure + 15) 0 100 ∧
        s2.impact.community_harm = clamp (s.impact.community_harm + 10) 0 100) ∧
      (lower_string p.action_type ≠ "ethical" →
        lower_string p.action_type ≠ "exploit" →
        in_range s.impact →
        s2.impact.privacy_exposure = s.impact.privacy_exposure ∧
        s2.impact.trust = s.impact.trust ∧
        s2.impact.community_harm = s.impact.community_harm) ∧
      s2.impact.regulatory_scrutiny = s.impact.regulatory_scrutiny ∧
      s2.impact.business_impact = s.impact.business_impact := by
  have hsess : log_action_session s p now = Except.ok
      { s with
        impact := apply_deltas s.impact
          ((SCENARIO_IMPACTS (lower_string p.action_type)).getD default_deltas) now
        actions := s.actions ++
          [{ ts := now, action_type := lower_string p.action_type,
             details := p.details,
             impact_after := apply_deltas s.impact
               ((SCENARIO_IMPACTS (lower_string p.action_type)).getD default_deltas) now }] } := by
    unfold log_action_session
    rw [h]
    rfl
  refine ⟨_, hsess, rfl, ?_, ?_, ?_, rfl, rfl⟩
  · intro heq
    simp only [heq]
    exact ⟨rfl, rfl, rfl⟩
  · intro heq
    simp only [heq]
    exact ⟨rfl, rfl, rfl⟩
  · intro h1 h2 hin
    obtain ⟨⟨hp0, hp1⟩, ⟨ht0, ht1⟩, -, -, ⟨hc0, hc1⟩⟩ := hin
    have hlook : (SCENARIO_IMPACTS (lower_string p.action_type)).getD default_deltas
        = default_deltas := by
      unfold SCENARIO_IMPACTS
      rw [if_neg h1, if_neg h2]
      rfl
    simp only [hlook]
    refine ⟨?_, ?_, ?_⟩
    · show clamp (s.impact.privacy_exposure + default_deltas.privacy_exposure) 0 100
        = s.impact.privacy_exposure
      rw [show default_deltas.privacy_exposure = 0 from rfl, add_zero]
      exact clamp_of_range _ hp0 hp1
    · show clamp (s.impact.trust + default_deltas.trust) 0 100 = s.impact.trust
      rw [show default_deltas.trust = 0 from rfl, add_zero]
      exact clamp_of_range _ ht0 ht1
    · show clamp (s.impact.community_harm + default_deltas.community_harm) 0 100
        = s.impact.community_harm
      rw [show default_deltas.community_harm = 0 from rfl, add_zero]
      exact clamp_of_range _ hc0 hc1

/-- Witness for C6: the mixed-case "Ethical" payload on the active session
is lowercased and applies the ethical deltas. -/
theorem c6_witness :
    sample_active.ethics_declared = true ∧
    lower_string ethical_payload.action_type = "ethical" ∧
    ∃ s2, log_action_session sample_active ethical_payload "t3" = Except.ok s2 ∧
      s2.impact.updated_at = "t3" ∧
      s2.impact.trust = clamp (sample_active.impact.trust + 10) 0 100 := by
  refine ⟨by decide, by decide, ?_⟩
  obtain ⟨s2, h1, h2, h3, -, -, -, -⟩ :=
    c6_action_deltas sample_active ethical_payload "t3" (by decide)
  exact ⟨s2, h1, h2, (h3 (by decide)).1⟩

/-- C8: `fake_llm_summary` is deterministic on session state (two calls
on an unchanged session agree on every field except `generated_at`); the
headline, narrative text and three-item recommendation list branch purely
on whether trust < 70; and `observations` is a suffix of the chronological
action-type labels of length at most 3 (most-recent-last). -/
theorem c8_summary_deterministic :
    (∀ (s : Session) (t1 t2 : String),
      (fake_llm_summary s t1).headline = (fake_llm_summary s t2).headline ∧
      (fake_llm_summary s t1).risk_level = (fake_llm_summary s t2).risk_level ∧
      (fake_llm_summary s t1).observations = (fake_llm_summary s t2).observations ∧
      (fake_llm_summary s t1).human_impact = (fake_llm_summary s t2).human_impact ∧
      (fake_llm_summary s t1).recommended_next_steps
        = (fake_llm_summary s t2).recommended_next_steps) ∧
    (∀ (s1 s2 : Session) (t : String),
      ((s1.impact.trust < 70) ↔ (s2.impact.trust < 70)) →
      (fake_llm_summary s1 t).headline = (fake_llm_summary s2 t).headline ∧
      (fake_llm_summary s1 t).human_impact = (fake_llm_summary s2 t).human_impact ∧
      (fake_llm_summary s1 t).recommended_next_steps
        = (fake_llm_summary s2 t).recommended_next_steps) ∧
    (∀ (s : Session) (t : String),
      (fake_llm_summary s t).observations.length ≤ 3 ∧
      ∃ pre, s.actions.map (fun a => a.action_type)
        = pre ++ (fake_llm_summary s t).observations) := by
  refine ⟨?_, ?_, ?_⟩
  · intro s t1 t2
    exact ⟨rfl, rfl, rfl, rfl, rfl⟩
  · intro s1 s2 t hiff
    by_cases h : s1.impact.trust < 70
    · have h2 : s2.impact.trust < 70 := hiff.mp h
      unfold fake_llm_summary
      simp only [if_pos h, if_pos h2]
      exact ⟨trivial, trivial, trivial⟩
    · have h2 : ¬s2.impact.trust < 70 := fun hx => h (hiff.mpr hx)
      unfold fake_llm_summary
      simp only [if_neg h, if_neg h2]
      exact ⟨trivial, trivial, trivial⟩
  · intro s t
    constructor
    · show (last_n (s.actions.map (fun a => a.action_type)) 3).length ≤ 3
      unfold last_n
      rw [List.length_drop]
      omega
    · refine ⟨(s.actions.map (fun a => a.action_type)).take
        ((s.actions.map (fun a => a.action_type)).length - 3), ?_⟩
      show _ = _ ++ last_n (s.actions.map (fun a => a.action_type)) 3
      unfold last_n
      exact (List.take_append_drop _ _).symm

/-- Witness for C8 at concrete sessions with equal trust. -/
theorem c8_witness :
    (fake_llm_summary sample_session "ta").headline
      = (fake_llm_summary sample_session "tb").headline ∧
    (fake_llm_summary sample_session "ta").headline
      = (fake_llm_summary sample_active "ta").headline ∧
    (fake_llm_summary sample_session "ta").observations.length ≤ 3 :=
  ⟨(c8_summary_deterministic.1 sample_session "ta" "tb").1,
   (c8_summary_deterministic.2.1 sample_session sample_active "ta" (by decide)).1,
   (c8_summary_deterministic.2.2 sample_session "ta").1⟩

/-- C9: a gated `log_action` appends exactly one Action Record at the end
of the actions sequence, the appended record embeds a frozen snapshot equal
to the exact post-mutation impact, and any sequence of later `log_action`
calls leaves the already-appended prefix (hence every stored snapshot)
unchanged. -/
theorem c9_append_only (s : Session) (p : ActionLogIn) (now : String)
    (h : s.ethics_declared = true) :
    ∃ s2, log_action_session s p now = Except.ok s2 ∧
      s2.actions = s.actions ++
        [{ ts := now, action_type := lower_string p.action_type,
           details := p.details, impact_after := s2.impact }] ∧
      ∀ inputs : List (ActionLogIn × String),
        (run_actions s2 inputs).actions.take s2.actions.length = s2.actions := by
  have hsess : log_action_session s p now = Except.ok
      { s with
        impact := apply_deltas s.impact
          ((SCENARIO_IMPACTS (lower_string p.action_type)).getD default_deltas) now
        actions := s.actions ++
          [{ ts := now, action_type := lower_string p.action_type,
             details := p.details,
             impact_after := apply_deltas s.impact
               ((SCENARIO_IMPACTS (lower_string p.action_type)).getD default_deltas) now }] } := by
    unfold log_action_session
    rw [h]
    rfl
  refine ⟨_, hsess, rfl, ?_⟩
  intro inputs
  obtain ⟨tail, htail⟩ := run_actions_actions_extend inputs _
  rw [htail]
  exact List.take_left _ _

/-- Witness for C9: one exploit call on the active session appends its
record, and a further exploit call preserves it. -/
theorem c9_witness :
    ∃ s2, log_action_session sample_active exploit_payload "t1" = Except.ok s2 ∧
      s2.actions = sample_active.actions ++
        [{ ts := "t1", action_type := lower_string exploit_payload.action_type,
           details := exploit_payload.details, impact_after := s2.impact }] ∧
      (run_actions s2 [(exploit_payload, "t2")]).actions.take s2.actions.length
        = s2.actions := by
  obtain ⟨s2, h1, h2, h3⟩ :=
    c9_append_only sample_active exploit_payload "t1" (by decide)
  exact ⟨s2, h1, h2, h3 [(exploit_payload, "t2")]⟩

end SafeLoop
